import Mathlib

/-!
Shallow embedding of the voice-agent core (VoiceActivityDetector,
AudioBufferManager, LlamaService history trimming, and the
VoiceAgentImpl controller) together with theorems settling the
frozen claims about it.

Numeric values that the source manipulates as IEEE doubles are
modelled as exact rationals; the one place where the source can
produce NaN (mean-squared energy of an empty frame, a division by
zero) is modelled with `Option ℚ`, `none` standing for NaN, and the
comparison operators on that type return `false` on `none`, exactly
as `NaN > x` and `NaN < x` are false in JavaScript.
-/

namespace VoiceAgentSpec

/-- A single audio frame: an ordered sequence of normalized amplitude samples. -/
abbrev Frame := List ℚ

/-! ### VoiceActivityDetector (src/utils/audioUtils.ts, class VoiceActivityDetector) -/

/-- Embedding of `VoiceActivityDetector.calculateEnergy`: the sum of squared
samples divided by the frame length.  For an empty frame the source divides
zero by zero, producing NaN; this is modelled as `none`. -/
def calculateEnergy (buffer : Frame) : Option ℚ :=
  if buffer.length = 0 then none
  else some ((buffer.map (fun s => s * s)).sum / (buffer.length : ℚ))

/-- JavaScript comparison `energy > t` where `energy` may be NaN (`none`). -/
def energyGtThreshold (e : Option ℚ) (t : ℚ) : Bool :=
  match e with
  | none => false
  | some v => decide (t < v)

/-- JavaScript comparison `energy < t` where `energy` may be NaN (`none`). -/
def energyLtThreshold (e : Option ℚ) (t : ℚ) : Bool :=
  match e with
  | none => false
  | some v => decide (v < t)

/-- The mutable fields of `VoiceActivityDetector`, including its configured
thresholds and durations. -/
structure VADState where
  energyThreshold : ℚ
  silenceThreshold : ℚ
  minSpeechDuration : ℚ
  maxSilenceDuration : ℚ
  speechStartTime : ℚ
  silenceStartTime : ℚ
  isSpeaking : Bool
deriving DecidableEq, Repr

/-- Default `VoiceActivityDetector` configuration as written in the class
field initializers. -/
def VADState.default : VADState :=
  { energyThreshold := 1/1000
    silenceThreshold := 5/10000
    minSpeechDuration := 1/2
    maxSilenceDuration := 2
    speechStartTime := 0
    silenceStartTime := 0
    isSpeaking := false }

/-- The record returned by `VoiceActivityDetector.processSample`. -/
structure VADResult where
  isSpeaking : Bool
  speechStart : Bool
  speechEnd : Bool
deriving DecidableEq, Repr

/-- Embedding of `VoiceActivityDetector.processSample`: branch-for-branch
translation of the source, returning the updated detector state together
with the result record (the source mutates `this` and returns the record). -/
def VADState.processSample (st : VADState) (buffer : Frame) (timestamp : ℚ) :
    VADState × VADResult :=
  let energy := calculateEnergy buffer
  let currentTime := timestamp
  if energyGtThreshold energy st.energyThreshold then
    if !st.isSpeaking then
      let st' := { st with speechStartTime := currentTime, isSpeaking := true,
                           silenceStartTime := 0 }
      (st', ⟨st'.isSpeaking, true, false⟩)
    else
      let st' := { st with silenceStartTime := 0 }
      (st', ⟨st'.isSpeaking, false, false⟩)
  else if energyLtThreshold energy st.silenceThreshold then
    if st.isSpeaking then
      if st.silenceStartTime = 0 then
        let st' := { st with silenceStartTime := currentTime }
        (st', ⟨st'.isSpeaking, false, false⟩)
      else if st.maxSilenceDuration < currentTime - st.silenceStartTime then
        let speechEnd := decide (st.minSpeechDuration < currentTime - st.speechStartTime)
        let st' := { st with isSpeaking := false, speechStartTime := 0,
                             silenceStartTime := 0 }
        (st', ⟨st'.isSpeaking, false, speechEnd⟩)
      else (st, ⟨st.isSpeaking, false, false⟩)
    else (st, ⟨st.isSpeaking, false, false⟩)
  else (st, ⟨st.isSpeaking, false, false⟩)

/-- Embedding of `VoiceActivityDetector.reset`. -/
def VADState.reset (st : VADState) : VADState :=
  { st with isSpeaking := false, speechStartTime := 0, silenceStartTime := 0 }

/-! ### AudioBufferManager (src/utils/audioUtils.ts, class AudioBufferManager) -/

/-- The fields of `AudioBufferManager`. -/
structure AudioBufferManager where
  buffers : List Frame
  maxBuffers : ℕ
  sampleRate : ℕ
  maxTotalSamples : ℕ
deriving DecidableEq, Repr

/-- The `AudioBufferManager(sampleRate, maxBuffers)` constructor:
`maxTotalSamples` is `sampleRate * 30` (thirty seconds of audio). -/
def mkAudioBufferManager (sampleRate : ℕ := 16000) (maxBuffers : ℕ := 10) :
    AudioBufferManager :=
  { buffers := [], maxBuffers := maxBuffers, sampleRate := sampleRate,
    maxTotalSamples := sampleRate * 30 }

/-- Embedding of `AudioBufferManager.getTotalSamples`. -/
def AudioBufferManager.totalSamples (m : AudioBufferManager) : ℕ :=
  (m.buffers.map List.length).sum

/-- Total sample count of a raw buffer list. -/
def samplesSum (bs : List Frame) : ℕ := (bs.map List.length).sum

/-- The first eviction loop in `addBuffer`:
`while (buffers.length > maxBuffers) buffers.shift()`. -/
def shiftWhileOverCount (maxBuffers : ℕ) : List Frame → List Frame
  | [] => []
  | b :: bs =>
    if maxBuffers < (b :: bs).length then shiftWhileOverCount maxBuffers bs
    else b :: bs

/-- The second eviction loop in `addBuffer`:
`while (totalSamples > maxTotalSamples && buffers.length > 1) buffers.shift()`. -/
def shiftWhileOverSamples (maxTotal : ℕ) : List Frame → List Frame
  | [] => []
  | [b] => [b]
  | b :: b2 :: bs =>
    if maxTotal < samplesSum (b :: b2 :: bs) then
      shiftWhileOverSamples maxTotal (b2 :: bs)
    else b :: b2 :: bs

/-- Embedding of `AudioBufferManager.addBuffer`: zero-length frames are
rejected, the (copied) frame is appended, then the two eviction loops run. -/
def AudioBufferManager.addBuffer (m : AudioBufferManager) (buffer : Frame) :
    AudioBufferManager :=
  if buffer.length = 0 then m
  else
    let bs := m.buffers ++ [buffer]
    let bs := shiftWhileOverCount m.maxBuffers bs
    let bs := shiftWhileOverSamples m.maxTotalSamples bs
    { m with buffers := bs }

/-- Embedding of `AudioBufferManager.getTruncatedBuffer`: the backwards copy
loop fills the result with the most recent `maxTotalSamples` samples of the
concatenation, i.e. its last `maxTotalSamples` samples. -/
def AudioBufferManager.getTruncatedBuffer (m : AudioBufferManager) : Frame :=
  let j := m.buffers.flatten
  j.drop (j.length - m.maxTotalSamples)

/-- Embedding of `AudioBufferManager.getConcatenatedBuffer`: empty buffer list
gives an empty array; an over-cap total is defensively truncated; otherwise
the frames are copied back-to-back, which is exactly their concatenation. -/
def AudioBufferManager.getConcatenatedBuffer (m : AudioBufferManager) : Frame :=
  if m.buffers = [] then []
  else if m.maxTotalSamples < m.totalSamples then m.getTruncatedBuffer
  else m.buffers.flatten

/-- Embedding of `AudioBufferManager.clear`. -/
def AudioBufferManager.clear (m : AudioBufferManager) : AudioBufferManager :=
  { m with buffers := [] }

/-! ### LlamaService history trimming (src/services/LlamaService.ts) -/

/-- Message roles of `ConversationMessage`. -/
inductive Role where
  | system
  | user
  | assistant
deriving DecidableEq, Repr

/-- A conversation message; the `timestamp` field of the source plays no
role in trimming and is omitted. -/
structure ConversationMessage where
  role : Role
  content : String
deriving DecidableEq, Repr

/-- JavaScript `arr.slice(-k)` for a non-negative integer `k`: for `k = 0`
the argument `-0` is `0` and the whole array is returned; for `k ≥ 1` the
last `min k arr.length` elements are returned. -/
def jsSliceLast {α : Type} (l : List α) (k : ℕ) : List α :=
  if k = 0 then l else l.drop (l.length - k)

/-- Embedding of `LlamaService.trimHistory` (acting on an explicit history
and configured maximum instead of `this`). -/
def trimHistory (maxHistoryLength : ℕ) (history : List ConversationMessage) :
    List ConversationMessage :=
  if history.length ≤ maxHistoryLength then history
  else
    let systemMessages := history.filter (fun m => m.role == Role.system)
    let conversationMessages := history.filter (fun m => !(m.role == Role.system))
    let messagesToKeep := (maxHistoryLength / 2) * 2
    systemMessages ++ jsSliceLast conversationMessages messagesToKeep

/-- Modelled from the spec's words (for comparison with `trimHistory`):
when the message count exceeds the configured maximum, retain all system
messages untouched and exactly the most recent `floor(max/2)*2` non-system
messages, in order; a history of at most the maximum is left unchanged. -/
def specTrimHistory (maxHistoryLength : ℕ) (history : List ConversationMessage) :
    List ConversationMessage :=
  if history.length ≤ maxHistoryLength then history
  else
    let keep := (maxHistoryLength / 2) * 2
    let nonSystem := history.filter (fun m => !(m.role == Role.system))
    history.filter (fun m => m.role == Role.system)
      ++ nonSystem.drop (nonSystem.length - keep)

/-! ### VoiceAgentImpl controller (src/VoiceAgent.ts)

The zustand store holds the observable state; the controller additionally
keeps `isRecording` and a recording-timeout handle, owns the audio buffer
and the VAD, and calls four external collaborators (audio capture, Whisper,
the LLM service and TTS).  Collaborator outcomes are supplied as explicit
environment values; a thrown JavaScript error is modelled as `Except.error`
carrying the error message.  Calls made to the transcription, generation
and speech collaborators are counted in the agent state. -/

/-- The zustand store state of `VoiceAgentImpl`. -/
structure StoreState where
  isListening : Bool
  isThinking : Bool
  isSpeaking : Bool
  transcript : String
  response : String
  error : Option String
  isInitialized : Bool
deriving DecidableEq, Repr

def StoreState.setListening (s : StoreState) (b : Bool) : StoreState :=
  { s with isListening := b }

def StoreState.setThinking (s : StoreState) (b : Bool) : StoreState :=
  { s with isThinking := b }

def StoreState.setSpeaking (s : StoreState) (b : Bool) : StoreState :=
  { s with isSpeaking := b }

def StoreState.setTranscript (s : StoreState) (t : String) : StoreState :=
  { s with transcript := t }

def StoreState.setResponse (s : StoreState) (r : String) : StoreState :=
  { s with response := r }

def StoreState.setError (s : StoreState) (e : Option String) : StoreState :=
  { s with error := e }

/-- Controller state: the store plus the controller's own fields and the
collaborator call counters used to observe which collaborators a turn
invoked. -/
structure AgentState where
  store : StoreState
  isRecording : Bool
  recordingTimeoutArmed : Bool
  audioBuffer : AudioBufferManager
  vad : VADState
  transcribeCalls : ℕ
  generateCalls : ℕ
  speakCalls : ℕ
deriving DecidableEq, Repr

/-- Outcomes of the collaborators consulted during one turn of the pipeline. -/
structure TurnEnv where
  whisperReady : Bool
  transcribeResult : Except String String
  generateResult : Except String String
  speakResult : Except String Unit

/-- Embedding of `VoiceAgentImpl.generateResponse`: throws when not
initialized; otherwise sets thinking, calls the LLM service, records the
response on success or the error message on failure, and clears thinking in
a `finally` before returning or re-throwing. -/
def generateResponse (env : TurnEnv) (a : AgentState) :
    AgentState × Except String String :=
  if !a.store.isInitialized then (a, .error "VoiceAgent not initialized")
  else
    let a := { a with store := a.store.setThinking true,
                      generateCalls := a.generateCalls + 1 }
    match env.generateResult with
    | .ok response =>
        ({ a with store := (a.store.setResponse response).setThinking false },
         .ok response)
    | .error msg =>
        ({ a with store := (a.store.setError (some msg)).setThinking false },
         .error msg)

/-- Embedding of `VoiceAgentImpl.speak`: throws when not initialized;
otherwise sets speaking and calls TTS.  On success the source only schedules
a timer that clears the speaking flag later, so the flag is still set when
the call returns; on failure it clears speaking, records the error message
and re-throws. -/
def speak (env : TurnEnv) (a : AgentState) : AgentState × Except String Unit :=
  if !a.store.isInitialized then (a, .error "VoiceAgent not initialized")
  else
    let a := { a with store := a.store.setSpeaking true,
                      speakCalls := a.speakCalls + 1 }
    match env.speakResult with
    | .ok _ => (a, .ok ())
    | .error msg =>
        ({ a with store := (a.store.setSpeaking false).setError (some msg) },
         .error msg)

/-- Embedding of `VoiceAgentImpl.processAccumulatedAudio` (the turn
pipeline).  Note the transcription-failure branch returns from inside the
`try` block before the `setThinking(false)` at its end is reached. -/
def processAccumulatedAudio (env : TurnEnv) (a : AgentState) : AgentState :=
  let audioData := a.audioBuffer.getConcatenatedBuffer
  if audioData.length = 0 then a
  else if !env.whisperReady then
    { a with store := a.store.setError (some "Voice processing unavailable. Whisper service not ready.") }
  else
    let a := { a with store := a.store.setThinking true,
                      transcribeCalls := a.transcribeCalls + 1 }
    match env.transcribeResult with
    | .error _ =>
        { a with store := a.store.setError (some "Voice transcription failed. Try speaking again.") }
    | .ok transcript =>
        let a :=
          if transcript.trim ≠ "" then
            let a := { a with store := a.store.setTranscript transcript }
            let gr := generateResponse env a
            match gr.2 with
            | .ok response =>
                let a := gr.1
                if response.trim ≠ "" then
                  let a := { a with store := a.store.setResponse response }
                  let sr := speak env a
                  match sr.2 with
                  | .ok _ => sr.1
                  | .error _ =>
                      { sr.1 with store := sr.1.store.setError (some "Failed to generate response. Please try again.") }
                else a
            | .error _ =>
                { gr.1 with store := gr.1.store.setError (some "Failed to generate response. Please try again.") }
          else a
        { a with store := a.store.setThinking false }

/-- Events of the audio-capture retry loop in `startListening`, recorded in
order: a capture-start attempt, the 500 ms backoff wait, and the
dispose/initialize pair of the capture subsystem between attempts. -/
inductive CapEvent where
  | attempt
  | wait (ms : ℕ)
  | disposeCapture
  | initCapture
deriving DecidableEq, Repr

/-- Embedding of the retry loop in `startListening`
(`while (retryCount < maxRetries) { try startRecording ... }`), with
`res i` the outcome of the `i`-th `startRecording` attempt.  Returns the
event trace and `some e` when the loop threw the final recording error `e`. -/
def retryFrom (res : ℕ → Except String Unit) (maxRetries retryCount : ℕ) :
    List CapEvent × Option String :=
  if retryCount < maxRetries then
    match res retryCount with
    | .ok _ => ([CapEvent.attempt], none)
    | .error e =>
        if maxRetries ≤ retryCount + 1 then ([CapEvent.attempt], some e)
        else
          let rest := retryFrom res maxRetries (retryCount + 1)
          (CapEvent.attempt :: CapEvent.wait 500 :: CapEvent.disposeCapture ::
             CapEvent.initCapture :: rest.1, rest.2)
  else ([], none)
termination_by maxRetries - retryCount

/-- JavaScript `s.includes(pat)` for a non-empty pattern. -/
def jsIncludes (s pat : String) : Bool := 2 ≤ (s.splitOn pat).length

/-- The capture-specific error message computed in the `catch` block of
`startListening` from the thrown error's message. -/
def captureErrorMessage (msg : String) : String :=
  if jsIncludes msg "OSStatus error 1718449215" then
    "Audio format not supported. Try restarting the app."
  else if jsIncludes msg "Permission" then
    "Microphone permission required. Please check app settings."
  else "Audio error: " ++ msg

/-- Embedding of `VoiceAgentImpl.startListening`: the initialization guard
throws, the re-entrancy guard returns unchanged; otherwise the error field
is cleared, listening is set, the transcript is cleared, the buffer and VAD
are reset, and the capture retry loop runs.  If the loop threw, the `catch`
block clears listening and recording and records the capture-specific error
without re-throwing.  The capture event trace is returned alongside. -/
def startListening (res : ℕ → Except String Unit) (a : AgentState) :
    Except String (AgentState × List CapEvent) :=
  if !a.store.isInitialized then .error "VoiceAgent not initialized"
  else if a.isRecording then .ok (a, [])
  else
    let a := { a with store := ((a.store.setError none).setListening true).setTranscript "" }
    let a := { a with audioBuffer := a.audioBuffer.clear, vad := a.vad.reset }
    let a := { a with isRecording := true }
    let loopOut := retryFrom res 3 0
    match loopOut.2 with
    | none => .ok ({ a with recordingTimeoutArmed := true }, loopOut.1)
    | some e =>
        let a := { a with store := a.store.setListening false,
                          isRecording := false }
        .ok ({ a with store := a.store.setError (some (captureErrorMessage e)) },
             loopOut.1)

/-- Embedding of the synchronous part of `VoiceAgentImpl.stopListening`
together with the awaited `stopRecording` outcome of
`stopRecordingAndProcess` (the recorded-audio callback that later feeds
`processAccumulatedAudio` is a separate asynchronous event). -/
def stopListening (stopResult : Except String Unit) (a : AgentState) :
    AgentState :=
  if !a.isRecording then a
  else
    let a := { a with isRecording := false,
                      store := a.store.setListening false,
                      recordingTimeoutArmed := false }
    match stopResult with
    | .ok _ => a
    | .error e =>
        { a with store := a.store.setError (some ("Processing failed: " ++ e)) }

/-- A concrete initialized idle store, used by concrete instances below. -/
def idleStore : StoreState :=
  { isListening := false, isThinking := false, isSpeaking := false,
    transcript := "", response := "", error := none, isInitialized := true }

/-- A VAD state with integral parameters, used by concrete instances below. -/
def plainVAD : VADState :=
  { energyThreshold := 1, silenceThreshold := 0, minSpeechDuration := 1,
    maxSilenceDuration := 2, speechStartTime := 0, silenceStartTime := 0,
    isSpeaking := false }

/-- A concrete initialized, idle controller state with an empty audio
buffer, used by concrete instances below. -/
def idleAgent : AgentState :=
  { store := idleStore, isRecording := false, recordingTimeoutArmed := false,
    audioBuffer := mkAudioBufferManager 1 3, vad := plainVAD,
    transcribeCalls := 0, generateCalls := 0, speakCalls := 0 }

/-- A turn environment in which every collaborator succeeds. -/
def allOkEnv : TurnEnv :=
  { whisperReady := true, transcribeResult := .ok "", generateResult := .ok "",
    speakResult := .ok () }

/-- The buffer-cap invariant that `addBuffer` actually enforces: the frame
count never exceeds `maxBuffers`, and the retained samples exceed
`maxTotalSamples` only when a single frame remains. -/
def AudioBufferManager.Inv (m : AudioBufferManager) : Prop :=
  m.buffers.length ≤ m.maxBuffers ∧
    (m.totalSamples ≤ m.maxTotalSamples ∨ m.buffers.length ≤ 1)

instance (m : AudioBufferManager) : Decidable m.Inv := by
  unfold AudioBufferManager.Inv
  exact inferInstance

/-! ## Theorems -/

theorem shiftWhileOverCount_length_le (maxB : ℕ) (bs : List Frame) :
    (shiftWhileOverCount maxB bs).length ≤ maxB := by
  induction bs with
  | nil => simp [shiftWhileOverCount]
  | cons b bs ih =>
      rw [shiftWhileOverCount]
      split
      · exact ih
      · next h => omega

theorem shiftWhileOverSamples_length_le (maxT : ℕ) (bs : List Frame) :
    (shiftWhileOverSamples maxT bs).length ≤ bs.length := by
  induction bs with
  | nil => simp [shiftWhileOverSamples]
  | cons b bs ih =>
      cases bs with
      | nil => simp [shiftWhileOverSamples]
      | cons b2 bs2 =>
          rw [shiftWhileOverSamples]
          split
          · exact Nat.le_trans ih (by simp)
          · exact Nat.le_refl _

theorem shiftWhileOverSamples_post (maxT : ℕ) (bs : List Frame) :
    samplesSum (shiftWhileOverSamples maxT bs) ≤ maxT
      ∨ (shiftWhileOverSamples maxT bs).length ≤ 1 := by
  induction bs with
  | nil => right; simp [shiftWhileOverSamples]
  | cons b bs ih =>
      cases bs with
      | nil => right; simp [shiftWhileOverSamples]
      | cons b2 bs2 =>
          rw [shiftWhileOverSamples]
          split
          · exact ih
          · next h => left; omega

theorem addBuffer_inv (m : AudioBufferManager) (b : Frame) (h : m.Inv) :
    (m.addBuffer b).Inv := by
  unfold AudioBufferManager.addBuffer
  split
  · exact h
  · refine ⟨?_, ?_⟩
    · exact Nat.le_trans
        (shiftWhileOverSamples_length_le m.maxTotalSamples _)
        (shiftWhileOverCount_length_le m.maxBuffers (m.buffers ++ [b]))
    · exact shiftWhileOverSamples_post m.maxTotalSamples _

/-- C1 (amended): starting from any manager state satisfying the enforced
invariant (in particular a freshly constructed manager), every sequence of
`addBuffer` calls preserves it: the frame count stays at most `maxBuffers`,
and the total retained samples stay at most `maxTotalSamples` except when
only a single (oversize) frame is retained. -/
theorem c1_buffer_caps (m : AudioBufferManager) (frames : List Frame)
    (h : m.Inv) : (frames.foldl AudioBufferManager.addBuffer m).Inv := by
  induction frames generalizing m with
  | nil => exact h
  | cons f fs ih => exact ih _ (addBuffer_inv m f h)

theorem c1_buffer_caps_witness :
    (mkAudioBufferManager 10 3).Inv
      ∧ (([[1], [2, 2], [3, 3, 3]] : List Frame).foldl
          AudioBufferManager.addBuffer (mkAudioBufferManager 10 3)).Inv :=
  ⟨by decide, c1_buffer_caps (mkAudioBufferManager 10 3) [[1], [2, 2], [3, 3, 3]] (by decide)⟩

/-- C1 (counterexample): a single `addBuffer` of one 31-sample frame on a
fresh manager with `maxTotalSamples = 1 * 30 = 30` leaves
`totalSamples = 31 > maxTotalSamples`, because the sample-cap eviction loop
stops as soon as only one frame remains. -/
theorem c1_single_oversize_frame :
    ((mkAudioBufferManager 1 3).addBuffer (List.replicate 31 1)).maxTotalSamples
      < ((mkAudioBufferManager 1 3).addBuffer (List.replicate 31 1)).totalSamples := by
  decide

/-- C2 (amended): if the detector is speaking, a silence start has been
recorded, the frame's mean squared energy is below `silenceThreshold` and
not above `energyThreshold`, and the silence has lasted longer than
`maxSilenceDuration`, then `speechEnd` is `true` exactly when the speech
lasted longer than `minSpeechDuration`, and in either case the detector
stops speaking and clears both timers. -/
theorem c2_silence_timeout (st : VADState) (buffer : Frame) (t : ℚ)
    (hgt : energyGtThreshold (calculateEnergy buffer) st.energyThreshold = false)
    (hlt : energyLtThreshold (calculateEnergy buffer) st.silenceThreshold = true)
    (hsp : st.isSpeaking = true)
    (hrec : st.silenceStartTime ≠ 0)
    (hdur : st.maxSilenceDuration < t - st.silenceStartTime) :
    ((st.processSample buffer t).2.speechEnd = true
        ↔ st.minSpeechDuration < t - st.speechStartTime)
      ∧ (st.processSample buffer t).1.isSpeaking = false
      ∧ (st.processSample buffer t).1.speechStartTime = 0
      ∧ (st.processSample buffer t).1.silenceStartTime = 0 := by
  simp [VADState.processSample, hgt, hlt, hsp, hrec, hdur]

theorem c2_silence_timeout_witness :
    (let st : VADState :=
      { energyThreshold := 2, silenceThreshold := 1, minSpeechDuration := 1,
        maxSilenceDuration := 2, speechStartTime := 0, silenceStartTime := 1,
        isSpeaking := true }
     ((st.processSample [0] 4).2.speechEnd = true
        ↔ st.minSpeechDuration < 4 - st.speechStartTime)
      ∧ (st.processSample [0] 4).1.isSpeaking = false
      ∧ (st.processSample [0] 4).1.speechStartTime = 0
      ∧ (st.processSample [0] 4).1.silenceStartTime = 0) :=
  c2_silence_timeout _ [0] 4
    (by norm_num [calculateEnergy, energyGtThreshold])
    (by norm_num [calculateEnergy, energyLtThreshold])
    rfl (by norm_num) (by norm_num)

/-- C2 (counterexample): with inverted thresholds
(`silenceThreshold = 1 > 0 = energyThreshold`, both reachable through the
constructor or `setThresholds`) a frame of energy 1/4 is below
`silenceThreshold`, yet `processSample` takes the high-energy branch, so the
detector stays speaking and emits no `speechEnd` even though the recorded
silence exceeds `maxSilenceDuration` and the speech exceeds
`minSpeechDuration` — contradicting the claim's unconditional reset. -/
theorem c2_inverted_thresholds :
    (let st : VADState :=
      { energyThreshold := 0, silenceThreshold := 1, minSpeechDuration := 1/2,
        maxSilenceDuration := 1, speechStartTime := 0, silenceStartTime := 5,
        isSpeaking := true }
     energyLtThreshold (calculateEnergy [1/2]) st.silenceThreshold = true
      ∧ st.isSpeaking = true
      ∧ st.silenceStartTime ≠ 0
      ∧ st.maxSilenceDuration < 10 - st.silenceStartTime
      ∧ st.minSpeechDuration < 10 - st.speechStartTime
      ∧ (st.processSample [1/2] 10).1.isSpeaking = true
      ∧ (st.processSample [1/2] 10).2.speechEnd = false) := by
  norm_num [VADState.processSample, calculateEnergy, energyGtThreshold, energyLtThreshold]

/-- C8: a frame whose mean squared energy lies between `silenceThreshold`
and `energyThreshold` inclusive leaves the detector state unchanged and
returns `speechStart = false` and `speechEnd = false`. -/
theorem c8_dead_zone (st : VADState) (buffer : Frame) (t e : ℚ)
    (hE : calculateEnergy buffer = some e)
    (h1 : st.silenceThreshold ≤ e) (h2 : e ≤ st.energyThreshold) :
    st.processSample buffer t = (st, ⟨st.isSpeaking, false, false⟩) := by
  have hgt : energyGtThreshold (calculateEnergy buffer) st.energyThreshold = false := by
    rw [hE]; simp [energyGtThreshold, not_lt.mpr h2]
  have hlt : energyLtThreshold (calculateEnergy buffer) st.silenceThreshold = false := by
    rw [hE]; simp [energyLtThreshold, not_lt.mpr h1]
  simp [VADState.processSample, hgt, hlt]

theorem c8_dead_zone_witness :
    (let st : VADState :=
      { energyThreshold := 1, silenceThreshold := 0, minSpeechDuration := 1/2,
        maxSilenceDuration := 2, speechStartTime := 3, silenceStartTime := 4,
        isSpeaking := true }
     st.processSample [1/2] 7 = (st, ⟨st.isSpeaking, false, false⟩)) :=
  c8_dead_zone _ [1/2] 7 (1/4) (by norm_num [calculateEnergy]) (by norm_num) (by norm_num)

/-- C10: on a zero-length frame the energy computation divides by zero
(NaN in the source, `none` here), both threshold comparisons are false, and
`processSample` returns `speechStart = false` and never switches
`isSpeaking` from `false` to `true`; in fact the state is unchanged. -/
theorem c10_empty_frame (st : VADState) (t : ℚ) (h : 0 ≤ st.energyThreshold) :
    (st.processSample [] t).2.speechStart = false
      ∧ (st.isSpeaking = false → (st.processSample [] t).1.isSpeaking = false) := by
  unfold VADState.processSample
  simp [calculateEnergy, energyGtThreshold, energyLtThreshold]

theorem c10_empty_frame_witness :
    (0 : ℚ) ≤ VADState.default.energyThreshold
      ∧ ((VADState.default.processSample [] 3).2.speechStart = false
          ∧ (VADState.default.isSpeaking = false →
              (VADState.default.processSample [] 3).1.isSpeaking = false)) :=
  ⟨by norm_num [VADState.default], c10_empty_frame VADState.default 3 (by norm_num [VADState.default])⟩

/-- C3 (evaluation at the failing input): with a non-empty buffer, Whisper
ready and a transcription failure, `processAccumulatedAudio` records the
transcription error but leaves `isThinking = true`, because the failure
branch returns before the `setThinking(false)` at the end of the `try`
block — the controller does not return to Idle as the claim states. -/
theorem c3_transcription_failure_stuck_thinking :
    (let env : TurnEnv :=
      { whisperReady := true, transcribeResult := .error "whisper crashed",
        generateResult := .ok "", speakResult := .ok () }
     let a : AgentState :=
      { idleAgent with
        audioBuffer := { (mkAudioBufferManager 1 3) with buffers := [[1]] } }
     (processAccumulatedAudio env a).store.isThinking = true
       ∧ (processAccumulatedAudio env a).store.error
           = some "Voice transcription failed. Try speaking again."
       ∧ (processAccumulatedAudio env a).transcribeCalls = a.transcribeCalls + 1) :=
  ⟨rfl, rfl, rfl⟩

/-- C4 (counterexample): a `speak()` call that passes its guard and whose
Speaker succeeds leaves a stale error from a previous failed turn in place,
so the error field is not cleared at the start of `speak()`. -/
theorem c4_speak_keeps_stale_error :
    (let a : AgentState := { idleAgent with
        store := { idleStore with error := some "previous turn failed" } }
     (speak allOkEnv a).2 = .ok ()
       ∧ (speak allOkEnv a).1.speakCalls = a.speakCalls + 1
       ∧ (speak allOkEnv a).1.store.error = some "previous turn failed") :=
  ⟨rfl, rfl, rfl⟩

/-- C4 (amended): `startListening()` clears the error field at the start of
every call that passes its guards — its outcome is independent of the
pre-existing error — while `speak()` never clears it: on a successful
speak the error field is returned unchanged. -/
theorem c4_error_clearing (res : ℕ → Except String Unit) (env : TurnEnv)
    (a : AgentState) (e : Option String)
    (hInit : a.store.isInitialized = true) (hRec : a.isRecording = false) :
    startListening res { a with store := { a.store with error := e } }
        = startListening res a
      ∧ (env.speakResult = .ok () → (speak env a).1.store.error = a.store.error) := by
  constructor
  · simp [startListening, StoreState.setError, StoreState.setListening,
      StoreState.setTranscript, hInit, hRec]
  · intro hok
    simp [speak, StoreState.setSpeaking, hInit, hok]

theorem c4_error_clearing_witness :
    (startListening (fun _ => Except.ok ())
        { idleAgent with store := { idleAgent.store with error := some "boom" } }
      = startListening (fun _ => Except.ok ()) idleAgent)
    ∧ (allOkEnv.speakResult = .ok () →
        (speak allOkEnv idleAgent).1.store.error = idleAgent.store.error) :=
  c4_error_clearing (fun _ => Except.ok ()) allOkEnv idleAgent (some "boom") rfl rfl

/-- C6: when the controller is initialized and not already recording,
`startListening` makes at most three capture-start attempts; the trace is
one of the three shapes in which consecutive attempts are separated by
exactly a 500 ms wait and a dispose/reinitialize of the capture subsystem;
and if all three attempts fail the call still returns normally (`.ok`),
with listening and recording off and the capture-specific error message of
the last failure recorded in the state. -/
theorem c6_capture_retry (res : ℕ → Except String Unit) (a : AgentState)
    (hInit : a.store.isInitialized = true) (hRec : a.isRecording = false) :
    ∃ st evs, startListening res a = .ok (st, evs)
      ∧ evs.count CapEvent.attempt ≤ 3
      ∧ (evs = [CapEvent.attempt]
         ∨ evs = [CapEvent.attempt, CapEvent.wait 500, CapEvent.disposeCapture,
                  CapEvent.initCapture, CapEvent.attempt]
         ∨ evs = [CapEvent.attempt, CapEvent.wait 500, CapEvent.disposeCapture,
                  CapEvent.initCapture, CapEvent.attempt, CapEvent.wait 500,
                  CapEvent.disposeCapture, CapEvent.initCapture, CapEvent.attempt])
      ∧ (∀ e0 e1 e2, res 0 = .error e0 → res 1 = .error e1 → res 2 = .error e2 →
           st.store.error = some (captureErrorMessage e2)
             ∧ st.store.isListening = false ∧ st.isRecording = false) := by
  have hstore : ((a.store.setError none).setListening true).setTranscript ""
      = { isListening := true, isThinking := a.store.isThinking,
          isSpeaking := a.store.isSpeaking, transcript := "",
          response := a.store.response, error := none,
          isInitialized := a.store.isInitialized } := rfl
  cases h0 : res 0 with
  | ok u0 =>
      have hloop : retryFrom res 3 0 = ([CapEvent.attempt], none) := by
        rw [retryFrom]
        norm_num [h0]
      have hrun :
          startListening res a
            = Except.ok
                ({ store :=
                     { isListening := true, isThinking := a.store.isThinking,
                       isSpeaking := a.store.isSpeaking, transcript := "",
                       response := a.store.response, error := none,
                       isInitialized := a.store.isInitialized },
                   isRecording := true, recordingTimeoutArmed := true,
                   audioBuffer := a.audioBuffer.clear, vad := a.vad.reset,
                   transcribeCalls := a.transcribeCalls,
                   generateCalls := a.generateCalls,
                   speakCalls := a.speakCalls },
                 [CapEvent.attempt]) := by
        simp [startListening, hInit, hRec, hloop, hstore]
      refine ⟨_, _, hrun, by decide, Or.inl rfl, ?_⟩
      intro e0' e1' e2' h0' h1' h2'
      simp at h0' 
  | error e0 =>
      cases h1 : res 1 with
      | ok u1 =>
          have hloop : retryFrom res 3 0
              = ([CapEvent.attempt, CapEvent.wait 500, CapEvent.disposeCapture,
                  CapEvent.initCapture, CapEvent.attempt], none) := by
            rw [retryFrom]
            norm_num [h0]
            rw [retryFrom]
            norm_num [h1]
          have hrun :
              startListening res a
                = Except.ok
                    ({ store :=
                         { isListening := true, isThinking := a.store.isThinking,
                           isSpeaking := a.store.isSpeaking, transcript := "",
                           response := a.store.response, error := none,
                           isInitialized := a.store.isInitialized },
                       isRecording := true, recordingTimeoutArmed := true,
                       audioBuffer := a.audioBuffer.clear, vad := a.vad.reset,
                       transcribeCalls := a.transcribeCalls,
                       generateCalls := a.generateCalls,
                       speakCalls := a.speakCalls },
                     [CapEvent.attempt, CapEvent.wait 500,
                      CapEvent.disposeCapture, CapEvent.initCapture,
                      CapEvent.attempt]) := by
            simp [startListening, hInit, hRec, hloop, hstore]
          refine ⟨_, _, hrun, by decide, Or.inr (Or.inl rfl), ?_⟩
          intro e0' e1' e2' h0' h1' h2'
          simp at h1' 
      | error e1 =>
          cases h2 : res 2 with
          | ok u2 =>
              have hloop : retryFrom res 3 0
                  = ([CapEvent.attempt, CapEvent.wait 500,
                      CapEvent.disposeCapture, CapEvent.initCapture,
                      CapEvent.attempt, CapEvent.wait 500,
                      CapEvent.disposeCapture, CapEvent.initCapture,
                      CapEvent.attempt], none) := by
                rw [retryFrom]
                norm_num [h0]
                rw [retryFrom]
                norm_num [h1]
                rw [retryFrom]
                norm_num [h2]
              have hrun :
                  startListening res a
                    = Except.ok
                        ({ store :=
                             { isListening := true,
                               isThinking := a.store.isThinking,
                               isSpeaking := a.store.isSpeaking,
                               transcript := "",
                               response := a.store.response, error := none,
                               isInitialized := a.store.isInitialized },
                           isRecording := true, recordingTimeoutArmed := true,
                           audioBuffer := a.audioBuffer.clear,
                           vad := a.vad.reset,
                           transcribeCalls := a.transcribeCalls,
                           generateCalls := a.generateCalls,
                           speakCalls := a.speakCalls },
                         [CapEvent.attempt, CapEvent.wait 500,
                          CapEvent.disposeCapture, CapEvent.initCapture,
                          CapEvent.attempt, CapEvent.wait 500,
                          CapEvent.disposeCapture, CapEvent.initCapture,
                          CapEvent.attempt]) := by
                simp [startListening, hInit, hRec, hloop, hstore]
              refine ⟨_, _, hrun, by decide, Or.inr (Or.inr rfl), ?_⟩
              intro e0' e1' e2' h0' h1' h2'
              simp at h2' 
          | error e2 =>
              have hloop : retryFrom res 3 0
                  = ([CapEvent.attempt, CapEvent.wait 500,
                      CapEvent.disposeCapture, CapEvent.initCapture,
                      CapEvent.attempt, CapEvent.wait 500,
                      CapEvent.disposeCapture, CapEvent.initCapture,
                      CapEvent.attempt], some e2) := by
                rw [retryFrom]
                norm_num [h0]
                rw [retryFrom]
                norm_num [h1]
                rw [retryFrom]
                norm_num [h2]
              have hrun :
                  startListening res a
                    = Except.ok
                        ({ store :=
                             { isListening := false,
                               isThinking := a.store.isThinking,
                               isSpeaking := a.store.isSpeaking,
                               transcript := "",
                               response := a.store.response,
                               error := some (captureErrorMessage e2),
                               isInitialized := a.store.isInitialized },
                           isRecording := false,
                           recordingTimeoutArmed := a.recordingTimeoutArmed,
                           audioBuffer := a.audioBuffer.clear,
                           vad := a.vad.reset,
                           transcribeCalls := a.transcribeCalls,
                           generateCalls := a.generateCalls,
                           speakCalls := a.speakCalls },
                         [CapEvent.attempt, CapEvent.wait 500,
                          CapEvent.disposeCapture, CapEvent.initCapture,
                          CapEvent.attempt, CapEvent.wait 500,
                          CapEvent.disposeCapture, CapEvent.initCapture,
                          CapEvent.attempt]) := by
                simp [startListening, hInit, hRec, hloop, StoreState.setError,
                  StoreState.setListening, StoreState.setTranscript]
              refine ⟨_, _, hrun, by decide, Or.inr (Or.inr rfl), ?_⟩
              intro e0' e1' e2' h0' h1' h2'
              have he : e2 = e2' := by
                simpa using h2' 
              subst he
              exact ⟨rfl, rfl, rfl⟩

theorem c6_capture_retry_witness :
    ∃ st evs, startListening (fun _ => Except.error "Permission denied") idleAgent
        = .ok (st, evs)
      ∧ evs.count CapEvent.attempt ≤ 3
      ∧ (evs = [CapEvent.attempt]
         ∨ evs = [CapEvent.attempt, CapEvent.wait 500, CapEvent.disposeCapture,
                  CapEvent.initCapture, CapEvent.attempt]
         ∨ evs = [CapEvent.attempt, CapEvent.wait 500, CapEvent.disposeCapture,
                  CapEvent.initCapture, CapEvent.attempt, CapEvent.wait 500,
                  CapEvent.disposeCapture, CapEvent.initCapture, CapEvent.attempt])
      ∧ (∀ e0 e1 e2,
           (fun _ => Except.error "Permission denied" : ℕ → Except String Unit) 0 = .error e0 →
           (fun _ => Except.error "Permission denied" : ℕ → Except String Unit) 1 = .error e1 →
           (fun _ => Except.error "Permission denied" : ℕ → Except String Unit) 2 = .error e2 →
           st.store.error = some (captureErrorMessage e2)
             ∧ st.store.isListening = false ∧ st.isRecording = false) :=
  c6_capture_retry (fun _ => Except.error "Permission denied") idleAgent rfl rfl

/-- C7: when the concatenated audio buffer is empty, the turn pipeline
returns with the controller state completely unchanged — in particular no
collaborator is invoked (all three call counters keep their values) and
the thinking flag is untouched. -/
theorem c7_empty_turn (env : TurnEnv) (a : AgentState)
    (h : (a.audioBuffer.getConcatenatedBuffer).length = 0) :
    processAccumulatedAudio env a = a
      ∧ (processAccumulatedAudio env a).transcribeCalls = a.transcribeCalls
      ∧ (processAccumulatedAudio env a).generateCalls = a.generateCalls
      ∧ (processAccumulatedAudio env a).speakCalls = a.speakCalls := by
  have he : processAccumulatedAudio env a = a := by
    unfold processAccumulatedAudio
    simp [h]
  exact ⟨he, by rw [he], by rw [he], by rw [he]⟩

theorem c7_empty_turn_witness :
    processAccumulatedAudio allOkEnv idleAgent = idleAgent
      ∧ (processAccumulatedAudio allOkEnv idleAgent).transcribeCalls
          = idleAgent.transcribeCalls
      ∧ (processAccumulatedAudio allOkEnv idleAgent).generateCalls
          = idleAgent.generateCalls
      ∧ (processAccumulatedAudio allOkEnv idleAgent).speakCalls
          = idleAgent.speakCalls :=
  c7_empty_turn allOkEnv idleAgent rfl

/-- C9: `stopListening()` while not recording changes nothing, and
`startListening()` while already recording returns immediately with the
state unchanged (no buffer clear, no VAD reset, no transcript clear) and an
empty capture trace. -/
theorem c9_noop_guards (stopRes : Except String Unit)
    (res : ℕ → Except String Unit) (a : AgentState) :
    (a.isRecording = false → stopListening stopRes a = a)
      ∧ (a.isRecording = true → a.store.isInitialized = true →
          startListening res a = .ok (a, [])) := by
  constructor
  · intro h
    unfold stopListening
    simp [h]
  · intro h hI
    unfold startListening
    simp [h, hI]

theorem c9_noop_guards_witness :
    stopListening (Except.ok ()) idleAgent = idleAgent
      ∧ startListening (fun _ => Except.ok ()) { idleAgent with isRecording := true }
          = .ok ({ idleAgent with isRecording := true }, []) :=
  ⟨(c9_noop_guards (Except.ok ()) (fun _ => Except.ok ()) idleAgent).1 rfl,
   (c9_noop_guards (Except.ok ()) (fun _ => Except.ok ())
      { idleAgent with isRecording := true }).2 rfl rfl⟩

/-- C5 (counterexample): with `maxHistoryLength = 1` and two non-system
messages, the claimed rule retains `floor(1/2)*2 = 0` non-system messages,
but the source computes `slice(-0)`, which is `slice(0)` and returns the
whole array, so `trimHistory` keeps both messages. -/
theorem c5_slice_neg_zero :
    trimHistory 1 [⟨Role.user, "a"⟩, ⟨Role.assistant, "b"⟩]
        = [⟨Role.user, "a"⟩, ⟨Role.assistant, "b"⟩]
      ∧ specTrimHistory 1 [⟨Role.user, "a"⟩, ⟨Role.assistant, "b"⟩] = [] := by
  decide

/-- C5 (amended): whenever the configured maximum is at least 2, the source
trimming coincides with the specified rule: a history of at most the
maximum is unchanged, and otherwise all system messages are retained
together with exactly the most recent `floor(max/2)*2` non-system messages
in order.  (For a maximum of 0 or 1 the retained-pair count is 0 and
`slice(-0)` instead keeps every non-system message.) -/
theorem c5_trim_matches_spec (maxLen : ℕ) (history : List ConversationMessage)
    (h : 2 ≤ maxLen) :
    trimHistory maxLen history = specTrimHistory maxLen history := by
  by_cases hc : history.length ≤ maxLen
  · simp [trimHistory, specTrimHistory, hc]
  · have hk : (maxLen / 2) * 2 ≠ 0 := by omega
    simp [trimHistory, specTrimHistory, hc, jsSliceLast, hk]

theorem c5_trim_matches_spec_witness :
    (let hist : List ConversationMessage :=
      [⟨Role.system, "s"⟩, ⟨Role.user, "u1"⟩, ⟨Role.assistant, "a1"⟩,
       ⟨Role.user, "u2"⟩, ⟨Role.assistant, "a2"⟩, ⟨Role.user, "u3"⟩,
       ⟨Role.assistant, "a3"⟩, ⟨Role.user, "u4"⟩, ⟨Role.assistant, "a4"⟩,
       ⟨Role.user, "u5"⟩, ⟨Role.assistant, "a5"⟩, ⟨Role.user, "u6"⟩]
     2 ≤ 10 ∧ trimHistory 10 hist = specTrimHistory 10 hist) :=
  ⟨by decide, c5_trim_matches_spec 10 _ (by decide)⟩

end VoiceAgentSpec
